import Mathlib

/-!
Shallow embedding of the ink pension_manager contract
(src/contracts/src/lib.rs of the solanainsurance repository).

The Balance type is u128; it is modelled as Nat together with explicit
overflow bounds in the checked/saturating arithmetic helpers.  AccountId is
modelled as Nat.  The caller (env().caller() in ink) is passed explicitly to
every operation.  Each mutating operation returns the pair of its result and
the post-state; an early error return leaves the state component untouched,
exactly as the Rust code returns before performing any storage insert.
-/

/-- Number of values of the u128 Balance type; products at or above this
bound overflow. -/
def U128_MOD : Nat := 2 ^ 128

/-- Rust u128 checked_mul: none exactly when the product overflows. -/
def checked_mul (a b : Nat) : Option Nat :=
  if a * b < U128_MOD then some (a * b) else none

/-- Rust u128 checked_div: none exactly when the divisor is zero; otherwise
truncating (floor) division. -/
def checked_div (a b : Nat) : Option Nat :=
  if b = 0 then none else some (a / b)

/-- Rust u128 saturating_add. -/
def saturating_add (a b : Nat) : Nat :=
  min (a + b) (U128_MOD - 1)

/-- Rust u128 saturating_sub; Nat subtraction already saturates at zero. -/
def saturating_sub (a b : Nat) : Nat := a - b

/-- Error enum of the pension_manager contract. -/
inductive Error where
  | Unauthorized
  | AlreadyRegistered
  | NotRegistered
  | PensionerNotFound
  | InvalidInput
  | PayoutNotApplicable
  | NotYetEligibleForPayout
  | AlreadyDeceased
deriving DecidableEq, Repr

/-- EmploymentStatus enum of the contract. -/
inductive EmploymentStatus where
  | Active
  | LongTermPause
  | LaidOff
deriving DecidableEq, Repr

/-- PensionerData struct of the contract. -/
structure PensionerData where
  years_worked : Nat
  current_salary : Nat
  status : EmploymentStatus
  is_deceased : Bool
  is_receiving_pension : Bool
  is_eligible_for_payout_age_wise : Bool
  pension_payout_amount : Option Nat
  spouse_beneficiary : Option Nat
deriving DecidableEq, Repr

/-- BankInsuranceInfo struct of the contract. -/
structure BankInsuranceInfo where
  bank_id : Nat
  insurance_payout_per_period : Nat
  details : String
deriving DecidableEq, Repr

/-- TaxOfficeInfo struct of the contract (tax_rate_percentage is a u8). -/
structure TaxOfficeInfo where
  tax_office_id : Nat
  tax_rate_percentage : Nat
deriving DecidableEq, Repr

/-- The contract storage: the four pensioner-related maps, the three role
authorization sets and the owner.  ink Mapping is modelled as a function to
Option (or to Bool for the unit-valued authorization mappings). -/
structure State where
  pensioners : Nat → Option PensionerData
  company_authorizations : Nat → Bool
  bank_authorizations : Nat → Bool
  tax_office_authorizations : Nat → Bool
  pensioner_insurances : Nat → Option (List BankInsuranceInfo)
  pensioner_tax_config : Nat → Option TaxOfficeInfo
  spouse_death_benefits : Nat → Option Nat
  contract_owner : Nat

/-- Mapping::insert. -/
def mapInsert {V : Type} (m : Nat → Option V) (k : Nat) (v : V) : Nat → Option V :=
  fun q => if q = k then some v else m q

/-- Mapping::remove. -/
def mapRemove {V : Type} (m : Nat → Option V) (k : Nat) : Nat → Option V :=
  fun q => if q = k then none else m q

/-- Mapping::insert for the unit-valued authorization mappings. -/
def setInsert (m : Nat → Bool) (k : Nat) : Nat → Bool :=
  fun q => if q = k then true else m q

/-- Mapping::remove for the unit-valued authorization mappings. -/
def setRemove (m : Nat → Bool) (k : Nat) : Nat → Bool :=
  fun q => if q = k then false else m q

/-- The constructor PensionManager::new: empty mappings, owner = caller. -/
def State.new (caller : Nat) : State :=
  { pensioners := fun _ => none
    company_authorizations := fun _ => false
    bank_authorizations := fun _ => false
    tax_office_authorizations := fun _ => false
    pensioner_insurances := fun _ => none
    pensioner_tax_config := fun _ => none
    spouse_death_benefits := fun _ => none
    contract_owner := caller }

/-- Default record created by update_pensioner_employment for an unknown
pensioner. -/
def defaultPensionerRecord : PensionerData :=
  { years_worked := 0
    current_salary := 0
    status := .Active
    is_deceased := false
    is_receiving_pension := false
    is_eligible_for_payout_age_wise := false
    pension_payout_amount := none
    spouse_beneficiary := none }

/-- The base-pension computation of _calculate_pension_amount:
salary.checked_div(100).unwrap_or(0).checked_mul(years).unwrap_or(0)
.checked_mul(2).unwrap_or(0). -/
def base_pension_calc (salary years : Nat) : Nat :=
  (checked_mul ((checked_mul ((checked_div salary 100).getD 0) years).getD 0) 2).getD 0

/-- The tax-amount computation of _calculate_pension_amount:
total.checked_mul(rate).unwrap_or(0).checked_div(100).unwrap_or(0). -/
def tax_amount_calc (total rate : Nat) : Nat :=
  (checked_div ((checked_mul total rate).getD 0) 100).getD 0

/-- The spouse-benefit computation of report_death_and_assign_spouse_benefit:
base.checked_mul(20).unwrap_or(0).checked_div(100).unwrap_or(0). -/
def spouse_benefit_calc (base : Nat) : Nat :=
  (checked_div ((checked_mul base 20).getD 0) 100).getD 0

/-- Folding the saturating additions of the insurance payouts over the base
pension, as in the for-loop of _calculate_pension_amount. -/
def total_with_insurances (s : State) (pid : Nat) (base : Nat) : Nat :=
  match s.pensioner_insurances pid with
  | some insurances =>
      insurances.foldl (fun acc i => saturating_add acc i.insurance_payout_per_period) base
  | none => base

/-- Private helper _calculate_pension_amount of the contract. -/
def _calculate_pension_amount (s : State) (pd : PensionerData) (pid : Nat) :
    Except Error Nat :=
  if pd.is_deceased then .error .PayoutNotApplicable
  else
    match s.pensioner_tax_config pid with
    | some tax_info =>
        if 100 < tax_info.tax_rate_percentage then .error .InvalidInput
        else .ok (saturating_sub
            (total_with_insurances s pid (base_pension_calc pd.current_salary pd.years_worked))
            (tax_amount_calc
              (total_with_insurances s pid (base_pension_calc pd.current_salary pd.years_worked))
              tax_info.tax_rate_percentage))
    | none =>
        .ok (total_with_insurances s pid (base_pension_calc pd.current_salary pd.years_worked))

/-- Message register_company (owner only). -/
def register_company (caller company_id : Nat) (s : State) :
    Except Error Unit × State :=
  if caller ≠ s.contract_owner then (.error .Unauthorized, s)
  else if s.company_authorizations company_id then (.error .AlreadyRegistered, s)
  else (.ok (), { s with company_authorizations := setInsert s.company_authorizations company_id })

/-- Message unregister_company (owner only). -/
def unregister_company (caller company_id : Nat) (s : State) :
    Except Error Unit × State :=
  if caller ≠ s.contract_owner then (.error .Unauthorized, s)
  else if !(s.company_authorizations company_id) then (.error .NotRegistered, s)
  else (.ok (), { s with company_authorizations := setRemove s.company_authorizations company_id })

/-- Message register_bank (owner only). -/
def register_bank (caller bank_id : Nat) (s : State) :
    Except Error Unit × State :=
  if caller ≠ s.contract_owner then (.error .Unauthorized, s)
  else if s.bank_authorizations bank_id then (.error .AlreadyRegistered, s)
  else (.ok (), { s with bank_authorizations := setInsert s.bank_authorizations bank_id })

/-- Message unregister_bank (owner only). -/
def unregister_bank (caller bank_id : Nat) (s : State) :
    Except Error Unit × State :=
  if caller ≠ s.contract_owner then (.error .Unauthorized, s)
  else if !(s.bank_authorizations bank_id) then (.error .NotRegistered, s)
  else (.ok (), { s with bank_authorizations := setRemove s.bank_authorizations bank_id })

/-- Message register_tax_office (owner only). -/
def register_tax_office (caller tax_office_id : Nat) (s : State) :
    Except Error Unit × State :=
  if caller ≠ s.contract_owner then (.error .Unauthorized, s)
  else if s.tax_office_authorizations tax_office_id then (.error .AlreadyRegistered, s)
  else (.ok (), { s with tax_office_authorizations := setInsert s.tax_office_authorizations tax_office_id })

/-- Message unregister_tax_office (owner only). -/
def unregister_tax_office (caller tax_office_id : Nat) (s : State) :
    Except Error Unit × State :=
  if caller ≠ s.contract_owner then (.error .Unauthorized, s)
  else if !(s.tax_office_authorizations tax_office_id) then (.error .NotRegistered, s)
  else (.ok (), { s with tax_office_authorizations := setRemove s.tax_office_authorizations tax_office_id })

/-- Message update_pensioner_employment (authorized companies only).  Creates
a default record when the pensioner is unknown; overwrites years, salary and
status; is_deceased and is_receiving_pension are not modified. -/
def update_pensioner_employment (caller pensioner_id years_worked current_salary : Nat)
    (status : EmploymentStatus) (s : State) : Except Error Unit × State :=
  if !(s.company_authorizations caller) then (.error .Unauthorized, s)
  else
    let pd := (s.pensioners pensioner_id).getD defaultPensionerRecord
    let pd := { pd with years_worked := years_worked, current_salary := current_salary,
                        status := status }
    (.ok (), { s with pensioners := mapInsert s.pensioners pensioner_id pd })

/-- Message add_pension_insurance (authorized banks only). -/
def add_pension_insurance (caller pensioner_id insurance_payout_per_period : Nat)
    (details : String) (s : State) : Except Error Unit × State :=
  if !(s.bank_authorizations caller) then (.error .Unauthorized, s)
  else if (s.pensioners pensioner_id).isNone then (.error .PensionerNotFound, s)
  else
    let insurance_info : BankInsuranceInfo :=
      { bank_id := caller, insurance_payout_per_period := insurance_payout_per_period,
        details := details }
    let insurances := (s.pensioner_insurances pensioner_id).getD []
    (.ok (), { s with pensioner_insurances :=
                        mapInsert s.pensioner_insurances pensioner_id
                          (insurances ++ [insurance_info]) })

/-- Message apply_pension_tax_rate (authorized tax offices only). -/
def apply_pension_tax_rate (caller pensioner_id tax_rate_percentage : Nat) (s : State) :
    Except Error Unit × State :=
  if !(s.tax_office_authorizations caller) then (.error .Unauthorized, s)
  else if (s.pensioners pensioner_id).isNone then (.error .PensionerNotFound, s)
  else if 100 < tax_rate_percentage then (.error .InvalidInput, s)
  else
    (.ok (), { s with pensioner_tax_config :=
                        mapInsert s.pensioner_tax_config pensioner_id
                          { tax_office_id := caller,
                            tax_rate_percentage := tax_rate_percentage } })

/-- Message set_age_eligibility_status (owner only). -/
def set_age_eligibility_status (caller pensioner_id : Nat) (is_eligible : Bool)
    (s : State) : Except Error Unit × State :=
  if caller ≠ s.contract_owner then (.error .Unauthorized, s)
  else
    match s.pensioners pensioner_id with
    | none => (.error .PensionerNotFound, s)
    | some pd =>
        (.ok (), { s with pensioners :=
                            mapInsert s.pensioners pensioner_id
                              { pd with is_eligible_for_payout_age_wise := is_eligible } })

/-- Message initiate_pension_payout (caller is the pensioner). -/
def initiate_pension_payout (caller : Nat) (s : State) : Except Error Nat × State :=
  match s.pensioners caller with
  | none => (.error .PensionerNotFound, s)
  | some pd =>
      if pd.is_deceased || pd.is_receiving_pension then (.error .PayoutNotApplicable, s)
      else if !pd.is_eligible_for_payout_age_wise then (.error .NotYetEligibleForPayout, s)
      else
        match _calculate_pension_amount s pd caller with
        | .error e => (.error e, s)
        | .ok calculated_payout =>
            (.ok calculated_payout,
              { s with pensioners :=
                         mapInsert s.pensioners caller
                           { pd with pension_payout_amount := some calculated_payout,
                                     is_receiving_pension := true } })

/-- Message designate_spouse_beneficiary (caller is the pensioner). -/
def designate_spouse_beneficiary (caller spouse_id : Nat) (s : State) :
    Except Error Unit × State :=
  match s.pensioners caller with
  | none => (.error .PensionerNotFound, s)
  | some pd =>
      if pd.is_deceased then (.error .PayoutNotApplicable, s)
      else
        (.ok (), { s with pensioners :=
                            mapInsert s.pensioners caller
                              { pd with spouse_beneficiary := some spouse_id } })

/-- Message report_death_and_assign_spouse_benefit (callable by anyone).  The
benefit base is computed by _calculate_pension_amount on the record before it
is marked deceased. -/
def report_death_and_assign_spouse_benefit (deceased_pensioner_id : Nat) (s : State) :
    Except Error (Option Nat) × State :=
  match s.pensioners deceased_pensioner_id with
  | none => (.error .PensionerNotFound, s)
  | some pd =>
      if pd.is_deceased then (.error .AlreadyDeceased, s)
      else
        match _calculate_pension_amount s pd deceased_pensioner_id with
        | .error e => (.error e, s)
        | .ok benefit_base_amount =>
            match pd.spouse_beneficiary with
            | some spouse_id =>
                (.ok (some (spouse_benefit_calc benefit_base_amount)),
                  { s with spouse_death_benefits :=
                             mapInsert s.spouse_death_benefits spouse_id
                               (spouse_benefit_calc benefit_base_amount),
                           pensioners :=
                             mapInsert s.pensioners deceased_pensioner_id
                               { pd with is_deceased := true, is_receiving_pension := false } })
            | none =>
                (.ok none,
                  { s with pensioners :=
                             mapInsert s.pensioners deceased_pensioner_id
                               { pd with is_deceased := true, is_receiving_pension := false } })

/-- Read-only message get_my_future_payout (caller is the pensioner). -/
def get_my_future_payout (caller : Nat) (s : State) : Except Error Nat :=
  match s.pensioners caller with
  | none => .error .PensionerNotFound
  | some pd =>
      if pd.is_deceased then .error .PayoutNotApplicable
      else _calculate_pension_amount s pd caller

/-- One state transition of the contract: some message executed by some
caller with some arguments (the resulting post-state whether the message
succeeded or returned an error). -/
inductive Step : State → State → Prop where
  | register_company_op (s : State) (c cid : Nat) : Step s (register_company c cid s).2
  | unregister_company_op (s : State) (c cid : Nat) : Step s (unregister_company c cid s).2
  | register_bank_op (s : State) (c bid : Nat) : Step s (register_bank c bid s).2
  | unregister_bank_op (s : State) (c bid : Nat) : Step s (unregister_bank c bid s).2
  | register_tax_office_op (s : State) (c tid : Nat) : Step s (register_tax_office c tid s).2
  | unregister_tax_office_op (s : State) (c tid : Nat) : Step s (unregister_tax_office c tid s).2
  | update_pensioner_employment_op (s : State) (c pid y sal : Nat) (st : EmploymentStatus) :
      Step s (update_pensioner_employment c pid y sal st s).2
  | add_pension_insurance_op (s : State) (c pid amt : Nat) (d : String) :
      Step s (add_pension_insurance c pid amt d s).2
  | apply_pension_tax_rate_op (s : State) (c pid rate : Nat) :
      Step s (apply_pension_tax_rate c pid rate s).2
  | set_age_eligibility_status_op (s : State) (c pid : Nat) (b : Bool) :
      Step s (set_age_eligibility_status c pid b s).2
  | initiate_pension_payout_op (s : State) (c : Nat) :
      Step s (initiate_pension_payout c s).2
  | designate_spouse_beneficiary_op (s : State) (c sp : Nat) :
      Step s (designate_spouse_beneficiary c sp s).2
  | report_death_op (s : State) (pid : Nat) :
      Step s (report_death_and_assign_spouse_benefit pid s).2

/-- A state is reachable when it arises from the constructor by a finite
sequence of message executions. -/
inductive Reachable : State → Prop where
  | init (caller : Nat) : Reachable (State.new caller)
  | step (s s2 : State) : Reachable s → Step s s2 → Reachable s2

/-- Characterization of the staged checked multiplications of the base
pension: the computed value is the exact product when it fits in u128 and 0
on any overflow (never a wrapped or clamped value). -/
theorem base_pension_calc_eq (salary years : Nat) :
    base_pension_calc salary years =
      if salary / 100 * years * 2 < U128_MOD then salary / 100 * years * 2 else 0 := by
  unfold base_pension_calc checked_div checked_mul
  simp only [if_neg (by decide : ¬(100 = 0)), Option.getD_some]
  by_cases h2 : salary / 100 * years < U128_MOD
  · by_cases h3 : salary / 100 * years * 2 < U128_MOD <;> simp [h2, h3]
  · rw [if_neg h2]
    have h3 : ¬ salary / 100 * years * 2 < U128_MOD := by
      intro hlt
      exact h2 (lt_of_le_of_lt (le_mul_of_one_le_right (Nat.zero_le _) (by decide)) hlt)
    have h0 : (0 : Nat) < U128_MOD := by decide
    simp [h3, h0]

/-- Characterization of the tax amount: exact floor(total * rate / 100) when
the product fits in u128 and 0 on overflow. -/
theorem tax_amount_calc_eq (total rate : Nat) :
    tax_amount_calc total rate =
      if total * rate < U128_MOD then total * rate / 100 else 0 := by
  unfold tax_amount_calc checked_div checked_mul
  by_cases h : total * rate < U128_MOD
  · simp [h]
  · simp [h]

/-- Characterization of the spouse benefit: exact floor(base * 20 / 100) when
the product fits in u128 and 0 on overflow. -/
theorem spouse_benefit_calc_eq (base : Nat) :
    spouse_benefit_calc base =
      if base * 20 < U128_MOD then base * 20 / 100 else 0 := by
  unfold spouse_benefit_calc checked_div checked_mul
  by_cases h : base * 20 < U128_MOD
  · simp [h]
  · simp [h]

/-- The deducted tax never exceeds the gross total when the rate is at most
100, so the net amount is never negative. -/
theorem tax_floor_le_total (total rate : Nat) (h : rate ≤ 100) :
    total * rate / 100 ≤ total := by
  calc total * rate / 100 ≤ total * 100 / 100 :=
        Nat.div_le_div_right (Nat.mul_le_mul_left _ h)
    _ = total := Nat.mul_div_cancel _ (by decide)

/-- C2 (amended): in the payout calculation engine every multiplication is
overflow-checked and an overflow yields 0 via unwrap_or(0) — it never wraps
and never clamps to the maximum — while every division truncates toward
zero; in particular when salary/100 times years_worked times 2 overflows the
computed base equals 0. -/
theorem c2_theorem :
    (∀ salary years, base_pension_calc salary years =
        if salary / 100 * years * 2 < U128_MOD then salary / 100 * years * 2 else 0) ∧
    (∀ total rate, tax_amount_calc total rate =
        if total * rate < U128_MOD then total * rate / 100 else 0) ∧
    (∀ base, spouse_benefit_calc base =
        if base * 20 < U128_MOD then base * 20 / 100 else 0) :=
  ⟨base_pension_calc_eq, tax_amount_calc_eq, spouse_benefit_calc_eq⟩

/-- C2 counterexample: at salary = 2^128 - 1 and years = 2^32 - 1 the base
product overflows u128 and the engine computes 0, not the maximum
representable Balance 2^128 - 1. -/
theorem c2_counterexample :
    U128_MOD ≤ (2 ^ 128 - 1) / 100 * (2 ^ 32 - 1) * 2 ∧
    base_pension_calc (2 ^ 128 - 1) (2 ^ 32 - 1) = 0 ∧
    base_pension_calc (2 ^ 128 - 1) (2 ^ 32 - 1) ≠ U128_MOD - 1 :=
  ⟨by decide, by decide, by decide⟩

/-- C3 (amended): for a non-deceased record the engine base equals
floor(salary/100) * years * 2 whenever that product fits in u128 (and is 0
when salary < 100 or years = 0); with a stored rate R at most 100 and gross
total T such that T * R fits in u128 the net result is T - floor(T * R / 100),
which is never negative since the deduction is at most T; with no tax config
the net equals the gross total. -/
theorem c3_theorem (s : State) (pid : Nat) (pd : PensionerData)
    (hdec : pd.is_deceased = false) :
    (pd.current_salary < 100 → base_pension_calc pd.current_salary pd.years_worked = 0) ∧
    (pd.years_worked = 0 → base_pension_calc pd.current_salary pd.years_worked = 0) ∧
    (pd.current_salary / 100 * pd.years_worked * 2 < U128_MOD →
       base_pension_calc pd.current_salary pd.years_worked =
         pd.current_salary / 100 * pd.years_worked * 2) ∧
    (s.pensioner_tax_config pid = none →
       _calculate_pension_amount s pd pid =
         .ok (total_with_insurances s pid (base_pension_calc pd.current_salary pd.years_worked))) ∧
    (∀ ti, s.pensioner_tax_config pid = some ti → ti.tax_rate_percentage ≤ 100 →
       total_with_insurances s pid (base_pension_calc pd.current_salary pd.years_worked) *
           ti.tax_rate_percentage < U128_MOD →
       _calculate_pension_amount s pd pid =
         .ok (total_with_insurances s pid (base_pension_calc pd.current_salary pd.years_worked) -
              total_with_insurances s pid (base_pension_calc pd.current_salary pd.years_worked) *
                ti.tax_rate_percentage / 100) ∧
       total_with_insurances s pid (base_pension_calc pd.current_salary pd.years_worked) *
           ti.tax_rate_percentage / 100 ≤
         total_with_insurances s pid (base_pension_calc pd.current_salary pd.years_worked)) := by
  refine ⟨?_, ?_, ?_, ?_, ?_⟩
  · intro h
    rw [base_pension_calc_eq]
    simp [Nat.div_eq_of_lt h]
  · intro h
    rw [base_pension_calc_eq, h]
    simp [U128_MOD]
  · intro h
    rw [base_pension_calc_eq, if_pos h]
  · intro hnone
    simp [_calculate_pension_amount, hdec, hnone]
  · intro ti hti hle hov
    refine ⟨?_, tax_floor_le_total _ _ hle⟩
    simp only [_calculate_pension_amount, hdec, Bool.false_eq_true, if_false, hti]
    rw [if_neg (by omega : ¬ 100 < ti.tax_rate_percentage)]
    unfold saturating_sub
    rw [tax_amount_calc_eq, if_pos hov]

/-- Concrete pensioner record of the worked example of the spec (salary
60000, 20 years, alive). -/
def egPensioner : PensionerData :=
  { years_worked := 20
    current_salary := 60000
    status := .Active
    is_deceased := false
    is_receiving_pension := false
    is_eligible_for_payout_age_wise := true
    pension_payout_amount := none
    spouse_beneficiary := none }

/-- Concrete contract state holding egPensioner under account 2 with one
insurance of 10000 and a stored tax rate of 10 percent. -/
def egState : State :=
  { State.new 0 with
      pensioners := mapInsert (fun _ => none) 2 egPensioner,
      pensioner_insurances :=
        mapInsert (fun _ => none) 2
          [{ bank_id := 3, insurance_payout_per_period := 10000, details := "basic" }],
      pensioner_tax_config :=
        mapInsert (fun _ => none) 2 { tax_office_id := 4, tax_rate_percentage := 10 } }

/-- C3 witness: at the spec's worked example (base 24000, gross 34000, rate
10) the amended theorem yields net 30600. -/
theorem c3_witness : _calculate_pension_amount egState egPensioner 2 = .ok 30600 :=
  ((c3_theorem egState 2 egPensioner rfl).2.2.2.2
    { tax_office_id := 4, tax_rate_percentage := 10 } rfl (by decide) (by decide)).1

/-- C3 counterexample: at salary = 2^127 and years = 101 the staged product
overflows u128, the engine base is 0 and differs from the exact
floor(salary/100) * years * 2. -/
theorem c3_counterexample :
    base_pension_calc (2 ^ 127) 101 = 0 ∧
    base_pension_calc (2 ^ 127) 101 ≠ 2 ^ 127 / 100 * 101 * 2 :=
  ⟨by decide, by decide⟩

/-- C5: after a successful initiate_pension_payout call, a second call by the
same pensioner returns PayoutNotApplicable and leaves the whole state — in
particular the stored amount and the rest of the record — unchanged. -/
theorem c5_theorem (s : State) (caller amt : Nat) (s2 : State)
    (h : initiate_pension_payout caller s = (.ok amt, s2)) :
    initiate_pension_payout caller s2 = (.error .PayoutNotApplicable, s2) := by
  unfold initiate_pension_payout at h
  split at h
  · simp at h
  · rename_i pd hpd
    split at h
    · simp at h
    · rename_i hg
      split at h
      · simp at h
      · rename_i he
        split at h
        · simp at h
        · rename_i amt2 hc
          injection h with h1 h2
          subst h2
          simp [initiate_pension_payout, mapInsert]

/-- Concrete state with an eligible living pensioner (account 2, salary
70000, 25 years, no insurance, no tax config). -/
def c5State : State :=
  { State.new 0 with
      pensioners :=
        mapInsert (fun _ => none) 2
          { years_worked := 25
            current_salary := 70000
            status := .Active
            is_deceased := false
            is_receiving_pension := false
            is_eligible_for_payout_age_wise := true
            pension_payout_amount := none
            spouse_beneficiary := none } }

/-- C5 witness: at the concrete state c5State the first call pays out 35000
and the second call returns PayoutNotApplicable without touching the state. -/
theorem c5_witness :
    initiate_pension_payout 2 (initiate_pension_payout 2 c5State).2 =
      (.error .PayoutNotApplicable, (initiate_pension_payout 2 c5State).2) :=
  c5_theorem c5State 2 35000 (initiate_pension_payout 2 c5State).2 rfl

/-- C6: report_death_and_assign_spouse_benefit is one-shot: after a
successful call every further call for that pensioner returns AlreadyDeceased
with the state unchanged, and the record has is_receiving_pension = false
(and is_deceased = true) whatever it was before. -/
theorem c6_theorem (s : State) (pid : Nat) (r : Option Nat) (s2 : State)
    (h : report_death_and_assign_spouse_benefit pid s = (.ok r, s2)) :
    report_death_and_assign_spouse_benefit pid s2 = (.error .AlreadyDeceased, s2) ∧
    ∃ pd2, s2.pensioners pid = some pd2 ∧
      pd2.is_receiving_pension = false ∧ pd2.is_deceased = true := by
  unfold report_death_and_assign_spouse_benefit at h
  split at h
  · simp at h
  · rename_i pd hpd
    split at h
    · simp at h
    · rename_i hdec
      split at h
      · simp at h
      · rename_i base hc
        split at h
        · rename_i sp hsp
          injection h with h1 h2
          subst h2
          refine ⟨by simp [report_death_and_assign_spouse_benefit, mapInsert], ?_⟩
          exact ⟨{ pd with is_deceased := true, is_receiving_pension := false },
            by simp [mapInsert], rfl, rfl⟩
        · rename_i hsp
          injection h with h1 h2
          subst h2
          refine ⟨by simp [report_death_and_assign_spouse_benefit, mapInsert], ?_⟩
          exact ⟨{ pd with is_deceased := true, is_receiving_pension := false },
            by simp [mapInsert], rfl, rfl⟩

/-- C6 witness: reporting the death of the living pensioner of c5State
succeeds; the second report returns AlreadyDeceased and the stored record has
is_receiving_pension = false. -/
theorem c6_witness :
    report_death_and_assign_spouse_benefit 2
        (report_death_and_assign_spouse_benefit 2 c5State).2 =
      (.error .AlreadyDeceased, (report_death_and_assign_spouse_benefit 2 c5State).2) ∧
    ∃ pd2, (report_death_and_assign_spouse_benefit 2 c5State).2.pensioners 2 = some pd2 ∧
      pd2.is_receiving_pension = false ∧ pd2.is_deceased = true :=
  c6_theorem c5State 2 none (report_death_and_assign_spouse_benefit 2 c5State).2 rfl

/-- C7 (amended): a successful death report computes the net payout on the
still-alive record; with a designated spouse it stores the benefit under the
spouse identity (overwriting any prior value) and returns Some of it, where
the benefit is floor(net * 20 / 100) when net * 20 fits in u128 and 0 when
that product overflows; with no spouse it returns Ok none and writes nothing
to spousal-benefit storage. -/
theorem c7_theorem (s : State) (pid : Nat) (pd : PensionerData) (net : Nat)
    (hpd : s.pensioners pid = some pd)
    (hdec : pd.is_deceased = false)
    (hcalc : _calculate_pension_amount s pd pid = .ok net) :
    (pd.spouse_beneficiary = none →
       report_death_and_assign_spouse_benefit pid s =
         (.ok none,
          { s with pensioners := (mapInsert s.pensioners pid
              { pd with is_deceased := true, is_receiving_pension := false }) })) ∧
    (∀ sp, pd.spouse_beneficiary = some sp →
       report_death_and_assign_spouse_benefit pid s =
         (.ok (some (spouse_benefit_calc net)),
          { s with
              spouse_death_benefits :=
                mapInsert s.spouse_death_benefits sp (spouse_benefit_calc net),
              pensioners := (mapInsert s.pensioners pid
                { pd with is_deceased := true, is_receiving_pension := false }) })) ∧
    spouse_benefit_calc net = (if net * 20 < U128_MOD then net * 20 / 100 else 0) := by
  refine ⟨?_, ?_, spouse_benefit_calc_eq net⟩
  · intro hsp
    unfold report_death_and_assign_spouse_benefit
    rw [hpd]
    simp only [hdec, Bool.false_eq_true, if_false, hcalc, hsp]
  · intro sp hsp
    unfold report_death_and_assign_spouse_benefit
    rw [hpd]
    simp only [hdec, Bool.false_eq_true, if_false, hcalc, hsp]

/-- Concrete record of the death-report example of the spec: salary 100000,
30 years, spouse designated under account 9. -/
def c7Pensioner : PensionerData :=
  { years_worked := 30
    current_salary := 100000
    status := .Active
    is_deceased := false
    is_receiving_pension := false
    is_eligible_for_payout_age_wise := true
    pension_payout_amount := none
    spouse_beneficiary := some 9 }

/-- Concrete state holding c7Pensioner under account 2, no insurance, no tax
config. -/
def c7State : State :=
  { State.new 0 with pensioners := mapInsert (fun _ => none) 2 c7Pensioner }

/-- C7 witness: at c7State (pre-death net 60000) the death report returns
Some 12000 and stores 12000 for spouse 9. -/
theorem c7_witness :
    report_death_and_assign_spouse_benefit 2 c7State =
      (.ok (some (spouse_benefit_calc 60000)),
       { c7State with
           spouse_death_benefits :=
             mapInsert c7State.spouse_death_benefits 9 (spouse_benefit_calc 60000),
           pensioners := (mapInsert c7State.pensioners 2
             { c7Pensioner with is_deceased := true, is_receiving_pension := false }) }) :=
  ((c7_theorem c7State 2 c7Pensioner 60000 rfl rfl rfl).2.1) 9 rfl

/-- Record whose pre-death net payout saturates to the maximum Balance:
zero base but one insurance of 2^128 - 1. -/
def c7BigPensioner : PensionerData :=
  { years_worked := 0
    current_salary := 0
    status := .Active
    is_deceased := false
    is_receiving_pension := false
    is_eligible_for_payout_age_wise := true
    pension_payout_amount := none
    spouse_beneficiary := some 9 }

/-- State holding c7BigPensioner under account 2 with a single insurance of
2^128 - 1 so that the pre-death net equals 2^128 - 1. -/
def c7BigState : State :=
  { State.new 0 with
      pensioners := mapInsert (fun _ => none) 2 c7BigPensioner,
      pensioner_insurances :=
        mapInsert (fun _ => none) 2
          [{ bank_id := 3, insurance_payout_per_period := 2 ^ 128 - 1, details := "big" }] }

/-- C7 counterexample: at c7BigState the pre-death net is 2^128 - 1, the
death report returns Some 0 (the checked multiplication by 20 overflows and
unwrap_or gives 0), yet floor(net * 20 / 100) is not 0 — the claimed stored
amount differs from the computed one. -/
theorem c7_counterexample :
    _calculate_pension_amount c7BigState c7BigPensioner 2 = .ok (2 ^ 128 - 1) ∧
    (report_death_and_assign_spouse_benefit 2 c7BigState).1 = .ok (some 0) ∧
    (2 ^ 128 - 1) * 20 / 100 ≠ 0 :=
  ⟨rfl, rfl, by decide⟩

/-- With a stored tax rate above 100 and a living record the engine fails
with InvalidInput. -/
theorem calc_bad_rate_invalid (s : State) (pd : PensionerData) (pid : Nat)
    (ti : TaxOfficeInfo) (hti : s.pensioner_tax_config pid = some ti)
    (hrate : 100 < ti.tax_rate_percentage) (hdec : pd.is_deceased = false) :
    _calculate_pension_amount s pd pid = .error .InvalidInput := by
  unfold _calculate_pension_amount
  simp only [hdec, Bool.false_eq_true, if_false, hti]
  rw [if_pos hrate]

/-- With a stored tax rate above 100 the engine never returns a value, for
any record. -/
theorem calc_bad_rate_never_ok (s : State) (pd : PensionerData) (pid : Nat)
    (ti : TaxOfficeInfo) (hti : s.pensioner_tax_config pid = some ti)
    (hrate : 100 < ti.tax_rate_percentage) (v : Nat) :
    _calculate_pension_amount s pd pid ≠ .ok v := by
  intro h
  unfold _calculate_pension_amount at h
  split at h
  · simp at h
  · split at h
    · rename_i ti2 hti2
      rw [hti] at hti2
      injection hti2 with hh
      subst hh
      split at h
      · simp at h
      · rename_i hle
        exact hle hrate
    · rename_i hnone
      rw [hti] at hnone
      simp at hnone

/-- C4 (amended): for a pensioner whose stored tax config has
tax_rate_percentage above 100 no calculation path ever returns a value; the
path returns InvalidInput exactly when its earlier guards pass (record alive
for get_my_future_payout and report_death, additionally not receiving and
age-eligible for initiate_pension_payout), and its guard error otherwise. -/
theorem c4_theorem (s : State) (pid : Nat) (pd : PensionerData) (ti : TaxOfficeInfo)
    (hpd : s.pensioners pid = some pd)
    (hti : s.pensioner_tax_config pid = some ti)
    (hrate : 100 < ti.tax_rate_percentage) :
    (pd.is_deceased = false → get_my_future_payout pid s = .error .InvalidInput) ∧
    (pd.is_deceased = false → pd.is_receiving_pension = false →
       pd.is_eligible_for_payout_age_wise = true →
       initiate_pension_payout pid s = (.error .InvalidInput, s)) ∧
    (pd.is_deceased = false →
       report_death_and_assign_spouse_benefit pid s = (.error .InvalidInput, s)) ∧
    (∀ v, get_my_future_payout pid s ≠ .ok v) ∧
    (∀ v, (initiate_pension_payout pid s).1 ≠ .ok v) ∧
    (∀ r, (report_death_and_assign_spouse_benefit pid s).1 ≠ .ok r) := by
  refine ⟨?_, ?_, ?_, ?_, ?_, ?_⟩
  · intro hdec
    simp only [get_my_future_payout, hpd, hdec, Bool.false_eq_true, if_false]
    exact calc_bad_rate_invalid s pd pid ti hti hrate hdec
  · intro hdec hrec helig
    have hc := calc_bad_rate_invalid s pd pid ti hti hrate hdec
    simp only [initiate_pension_payout, hpd, hdec, hrec, helig, hc, Bool.or_self,
      Bool.false_eq_true, if_false, Bool.not_true]
  · intro hdec
    have hc := calc_bad_rate_invalid s pd pid ti hti hrate hdec
    simp only [report_death_and_assign_spouse_benefit, hpd, hdec, hc,
      Bool.false_eq_true, if_false]
  · intro v h
    simp only [get_my_future_payout, hpd] at h
    split at h
    · simp at h
    · exact calc_bad_rate_never_ok s pd pid ti hti hrate v h
  · intro v h
    simp only [initiate_pension_payout, hpd] at h
    split at h
    · simp at h
    · split at h
      · simp at h
      · split at h
        · simp at h
        · rename_i v2 hc
          exact calc_bad_rate_never_ok s pd pid ti hti hrate v2 hc
  · intro r h
    simp only [report_death_and_assign_spouse_benefit, hpd] at h
    split at h
    · simp at h
    · split at h
      · simp at h
      · rename_i v2 hc
        exact calc_bad_rate_never_ok s pd pid ti hti hrate v2 hc

/-- Living eligible pensioner record used for the bad-tax-rate claim. -/
def c4Pensioner : PensionerData :=
  { years_worked := 10
    current_salary := 50000
    status := .Active
    is_deceased := false
    is_receiving_pension := false
    is_eligible_for_payout_age_wise := true
    pension_payout_amount := none
    spouse_beneficiary := none }

/-- State holding c4Pensioner under account 2 with a corrupt stored tax rate
of 150 (as the repository's own test inserts directly into storage). -/
def c4State : State :=
  { State.new 0 with
      pensioners := mapInsert (fun _ => none) 2 c4Pensioner,
      pensioner_tax_config :=
        mapInsert (fun _ => none) 2 { tax_office_id := 4, tax_rate_percentage := 150 } }

/-- C4 witness: with the living eligible record of c4State all three
calculation paths return InvalidInput. -/
theorem c4_witness :
    get_my_future_payout 2 c4State = .error .InvalidInput ∧
    initiate_pension_payout 2 c4State = (.error .InvalidInput, c4State) ∧
    report_death_and_assign_spouse_benefit 2 c4State = (.error .InvalidInput, c4State) :=
  ⟨(c4_theorem c4State 2 c4Pensioner ⟨4, 150⟩ rfl rfl (by decide)).1 rfl,
   (c4_theorem c4State 2 c4Pensioner ⟨4, 150⟩ rfl rfl (by decide)).2.1 rfl rfl rfl,
   (c4_theorem c4State 2 c4Pensioner ⟨4, 150⟩ rfl rfl (by decide)).2.2.1 rfl⟩

/-- Deceased pensioner record with the same corrupt tax rate. -/
def c4DeadPensioner : PensionerData :=
  { c4Pensioner with is_deceased := true }

/-- State holding c4DeadPensioner under account 2 with stored tax rate 150. -/
def c4DeadState : State :=
  { c4State with pensioners := mapInsert (fun _ => none) 2 c4DeadPensioner }

/-- C4 counterexample: for a deceased pensioner whose stored tax rate is 150
the read and death-report paths return PayoutNotApplicable respectively
AlreadyDeceased, not InvalidInput as the claim states. -/
theorem c4_counterexample :
    get_my_future_payout 2 c4DeadState = .error .PayoutNotApplicable ∧
    report_death_and_assign_spouse_benefit 2 c4DeadState =
      (.error .AlreadyDeceased, c4DeadState) ∧
    Error.PayoutNotApplicable ≠ Error.InvalidInput ∧
    Error.AlreadyDeceased ≠ Error.InvalidInput :=
  ⟨rfl, rfl, by decide, by decide⟩

/-- C10: neither add_pension_insurance nor apply_pension_tax_rate checks the
deceased flag: for an existing deceased record an authorized bank still
appends the insurance entry and an authorized tax office with rate at most
100 still overwrites the tax config. -/
theorem c10_theorem (s : State) (caller pid : Nat) (pd : PensionerData)
    (hpd : s.pensioners pid = some pd) (hdec : pd.is_deceased = true) :
    (s.bank_authorizations caller = true → ∀ amt d,
       add_pension_insurance caller pid amt d s =
         (.ok (), { s with pensioner_insurances :=
           (mapInsert s.pensioner_insurances pid
             (((s.pensioner_insurances pid).getD []) ++
              [{ bank_id := caller, insurance_payout_per_period := amt, details := d }])) })) ∧
    (s.tax_office_authorizations caller = true → ∀ rate, rate ≤ 100 →
       apply_pension_tax_rate caller pid rate s =
         (.ok (), { s with pensioner_tax_config :=
           (mapInsert s.pensioner_tax_config pid
             { tax_office_id := caller, tax_rate_percentage := rate }) })) := by
  constructor
  · intro hbank amt d
    simp [add_pension_insurance, hbank, hpd]
  · intro htax rate hle
    simp [apply_pension_tax_rate, htax, hpd]
    omega

/-- Deceased pensioner record for the C10 witness. -/
def c10Pensioner : PensionerData :=
  { years_worked := 10
    current_salary := 50000
    status := .Active
    is_deceased := true
    is_receiving_pension := false
    is_eligible_for_payout_age_wise := false
    pension_payout_amount := none
    spouse_beneficiary := none }

/-- State with the deceased c10Pensioner under account 2, bank 3 and tax
office 4 authorized. -/
def c10State : State :=
  { State.new 0 with
      pensioners := mapInsert (fun _ => none) 2 c10Pensioner,
      bank_authorizations := setInsert (fun _ => false) 3,
      tax_office_authorizations := setInsert (fun _ => false) 4 }

/-- C10 witness: at c10State the bank call and the tax-office call against
the deceased record both succeed. -/
theorem c10_witness :
    (add_pension_insurance 3 2 500 "late" c10State).1 = .ok () ∧
    (apply_pension_tax_rate 4 2 30 c10State).1 = .ok () := by
  constructor
  · rw [(c10_theorem c10State 3 2 c10Pensioner rfl rfl).1 rfl 500 "late"]
  · rw [(c10_theorem c10State 4 2 c10Pensioner rfl rfl).2 rfl 30 (by decide)]

/-- C9 (amended): every operation checks exactly its own role: a caller not
in the bank set gets Unauthorized from add_pension_insurance, a caller not
in the tax-office set gets Unauthorized from apply_pension_tax_rate, a
caller not in the company set gets Unauthorized from
update_pensioner_employment, and a caller other than the owner gets
Unauthorized from every owner-only operation — regardless of what other
roles the caller holds.  In particular an identity registered only as a
company is rejected by all bank, tax-office and owner operations, and
symmetrically; but the role sets are independent, so an identity registered
in two sets can use both (see the counterexample). -/
theorem c9_theorem (s : State) (caller : Nat) :
    (s.bank_authorizations caller = false → ∀ pid amt d,
       add_pension_insurance caller pid amt d s = (.error .Unauthorized, s)) ∧
    (s.tax_office_authorizations caller = false → ∀ pid rate,
       apply_pension_tax_rate caller pid rate s = (.error .Unauthorized, s)) ∧
    (s.company_authorizations caller = false → ∀ pid y sal st,
       update_pensioner_employment caller pid y sal st s = (.error .Unauthorized, s)) ∧
    (caller ≠ s.contract_owner →
       (∀ i, register_company caller i s = (.error .Unauthorized, s)) ∧
       (∀ i, unregister_company caller i s = (.error .Unauthorized, s)) ∧
       (∀ i, register_bank caller i s = (.error .Unauthorized, s)) ∧
       (∀ i, unregister_bank caller i s = (.error .Unauthorized, s)) ∧
       (∀ i, register_tax_office caller i s = (.error .Unauthorized, s)) ∧
       (∀ i, unregister_tax_office caller i s = (.error .Unauthorized, s)) ∧
       (∀ pid b, set_age_eligibility_status caller pid b s = (.error .Unauthorized, s))) := by
  refine ⟨?_, ?_, ?_, ?_⟩
  · intro h pid amt d
    simp [add_pension_insurance, h]
  · intro h pid rate
    simp [apply_pension_tax_rate, h]
  · intro h pid y sal st
    simp [update_pensioner_employment, h]
  · intro h
    refine ⟨?_, ?_, ?_, ?_, ?_, ?_, ?_⟩
    · intro i; simp [register_company, h]
    · intro i; simp [unregister_company, h]
    · intro i; simp [register_bank, h]
    · intro i; simp [unregister_bank, h]
    · intro i; simp [register_tax_office, h]
    · intro i; simp [unregister_tax_office, h]
    · intro pid b; simp [set_age_eligibility_status, h]

/-- C9 witness: on a fresh contract owned by account 0, account 7 (which
holds no role) is rejected by a bank, a tax-office, a company and an owner
operation. -/
theorem c9_witness :
    add_pension_insurance 7 2 100 "x" (State.new 0) =
      (.error .Unauthorized, State.new 0) ∧
    apply_pension_tax_rate 7 2 10 (State.new 0) = (.error .Unauthorized, State.new 0) ∧
    update_pensioner_employment 7 2 1 100 .Active (State.new 0) =
      (.error .Unauthorized, State.new 0) ∧
    register_company 7 8 (State.new 0) = (.error .Unauthorized, State.new 0) :=
  ⟨(c9_theorem (State.new 0) 7).1 rfl 2 100 "x",
   (c9_theorem (State.new 0) 7).2.1 rfl 2 10,
   (c9_theorem (State.new 0) 7).2.2.1 rfl 2 1 100 .Active,
   ((c9_theorem (State.new 0) 7).2.2.2 (by decide)).1 8⟩

/-- Reachable state in which the owner 0 registered account 5 both as a
company and as a bank, and company 5 created pensioner 2. -/
def c9DualState : State :=
  (update_pensioner_employment 5 2 10 50000 .Active
    (register_bank 0 5 (register_company 0 5 (State.new 0)).2).2).2

/-- C9 counterexample: account 5 is registered as a company, yet its call of
the bank-only operation add_pension_insurance succeeds in the reachable
state c9DualState (5 is also registered as a bank), refuting the claim that
every company-registered caller gets Unauthorized from bank-only
operations. -/
theorem c9_counterexample :
    Reachable c9DualState ∧
    c9DualState.company_authorizations 5 = true ∧
    (add_pension_insurance 5 2 100 "dual" c9DualState).1 = .ok () := by
  refine ⟨?_, rfl, rfl⟩
  exact Reachable.step _ _
    (Reachable.step _ _
      (Reachable.step _ _ (Reachable.init 0) (Step.register_company_op _ 0 5))
      (Step.register_bank_op _ 0 5))
    (Step.update_pensioner_employment_op _ 5 2 10 50000 .Active)

/-- C8: every mutating operation is atomic with respect to errors: whenever
an operation returns an error, the returned state is exactly the pre-call
state — all four maps, all three authorization sets and every record field
unchanged. -/
theorem c8_theorem :
    (∀ s c i e, (register_company c i s).1 = .error e → (register_company c i s).2 = s) ∧
    (∀ s c i e, (unregister_company c i s).1 = .error e → (unregister_company c i s).2 = s) ∧
    (∀ s c i e, (register_bank c i s).1 = .error e → (register_bank c i s).2 = s) ∧
    (∀ s c i e, (unregister_bank c i s).1 = .error e → (unregister_bank c i s).2 = s) ∧
    (∀ s c i e, (register_tax_office c i s).1 = .error e →
       (register_tax_office c i s).2 = s) ∧
    (∀ s c i e, (unregister_tax_office c i s).1 = .error e →
       (unregister_tax_office c i s).2 = s) ∧
    (∀ s c pid y sal st e, (update_pensioner_employment c pid y sal st s).1 = .error e →
       (update_pensioner_employment c pid y sal st s).2 = s) ∧
    (∀ s c pid amt d e, (add_pension_insurance c pid amt d s).1 = .error e →
       (add_pension_insurance c pid amt d s).2 = s) ∧
    (∀ s c pid rate e, (apply_pension_tax_rate c pid rate s).1 = .error e →
       (apply_pension_tax_rate c pid rate s).2 = s) ∧
    (∀ s c pid b e, (set_age_eligibility_status c pid b s).1 = .error e →
       (set_age_eligibility_status c pid b s).2 = s) ∧
    (∀ s c e, (initiate_pension_payout c s).1 = .error e →
       (initiate_pension_payout c s).2 = s) ∧
    (∀ s c sp e, (designate_spouse_beneficiary c sp s).1 = .error e →
       (designate_spouse_beneficiary c sp s).2 = s) ∧
    (∀ s pid e, (report_death_and_assign_spouse_benefit pid s).1 = .error e →
       (report_death_and_assign_spouse_benefit pid s).2 = s) := by
  refine ⟨?_, ?_, ?_, ?_, ?_, ?_, ?_, ?_, ?_, ?_, ?_, ?_, ?_⟩
  · intro s c i e
    unfold register_company
    repeat' split
    all_goals intro h
    all_goals first | rfl | simp at h
  · intro s c i e
    unfold unregister_company
    repeat' split
    all_goals intro h
    all_goals first | rfl | simp at h
  · intro s c i e
    unfold register_bank
    repeat' split
    all_goals intro h
    all_goals first | rfl | simp at h
  · intro s c i e
    unfold unregister_bank
    repeat' split
    all_goals intro h
    all_goals first | rfl | simp at h
  · intro s c i e
    unfold register_tax_office
    repeat' split
    all_goals intro h
    all_goals first | rfl | simp at h
  · intro s c i e
    unfold unregister_tax_office
    repeat' split
    all_goals intro h
    all_goals first | rfl | simp at h
  · intro s c pid y sal st e
    unfold update_pensioner_employment
    repeat' split
    all_goals intro h
    all_goals first | rfl | simp at h
  · intro s c pid amt d e
    unfold add_pension_insurance
    repeat' split
    all_goals intro h
    all_goals first | rfl | simp at h
  · intro s c pid rate e
    unfold apply_pension_tax_rate
    repeat' split
    all_goals intro h
    all_goals first | rfl | simp at h
  · intro s c pid b e
    unfold set_age_eligibility_status
    repeat' split
    all_goals intro h
    all_goals first | rfl | simp at h
  · intro s c e
    unfold initiate_pension_payout
    repeat' split
    all_goals intro h
    all_goals first | rfl | simp at h
  · intro s c sp e
    unfold designate_spouse_beneficiary
    repeat' split
    all_goals intro h
    all_goals first | rfl | simp at h
  · intro s pid e
    unfold report_death_and_assign_spouse_benefit
    repeat' split
    all_goals intro h
    all_goals first | rfl | simp at h

/-- C8 witness: on a fresh contract, register_company by non-owner 1 errors
with Unauthorized and the returned state is the unchanged pre-call state. -/
theorem c8_witness : (register_company 1 2 (State.new 0)).2 = State.new 0 :=
  c8_theorem.1 (State.new 0) 1 2 .Unauthorized rfl

/-- The record-level invariant of the claim: no stored record is both
deceased and receiving a pension. -/
def NoDeceasedReceiving (s : State) : Prop :=
  ∀ pid pd, s.pensioners pid = some pd →
    ¬(pd.is_deceased = true ∧ pd.is_receiving_pension = true)

/-- register_company leaves the pensioner map unchanged. -/
theorem register_company_pensioners (c i : Nat) (s : State) :
    ((register_company c i s).2).pensioners = s.pensioners := by
  unfold register_company
  repeat' split
  all_goals rfl

/-- unregister_company leaves the pensioner map unchanged. -/
theorem unregister_company_pensioners (c i : Nat) (s : State) :
    ((unregister_company c i s).2).pensioners = s.pensioners := by
  unfold unregister_company
  repeat' split
  all_goals rfl

/-- register_bank leaves the pensioner map unchanged. -/
theorem register_bank_pensioners (c i : Nat) (s : State) :
    ((register_bank c i s).2).pensioners = s.pensioners := by
  unfold register_bank
  repeat' split
  all_goals rfl

/-- unregister_bank leaves the pensioner map unchanged. -/
theorem unregister_bank_pensioners (c i : Nat) (s : State) :
    ((unregister_bank c i s).2).pensioners = s.pensioners := by
  unfold unregister_bank
  repeat' split
  all_goals rfl

/-- register_tax_office leaves the pensioner map unchanged. -/
theorem register_tax_office_pensioners (c i : Nat) (s : State) :
    ((register_tax_office c i s).2).pensioners = s.pensioners := by
  unfold register_tax_office
  repeat' split
  all_goals rfl

/-- unregister_tax_office leaves the pensioner map unchanged. -/
theorem unregister_tax_office_pensioners (c i : Nat) (s : State) :
    ((unregister_tax_office c i s).2).pensioners = s.pensioners := by
  unfold unregister_tax_office
  repeat' split
  all_goals rfl

/-- add_pension_insurance leaves the pensioner map unchanged. -/
theorem add_pension_insurance_pensioners (c pid amt : Nat) (d : String) (s : State) :
    ((add_pension_insurance c pid amt d s).2).pensioners = s.pensioners := by
  unfold add_pension_insurance
  repeat' split
  all_goals rfl

/-- apply_pension_tax_rate leaves the pensioner map unchanged. -/
theorem apply_pension_tax_rate_pensioners (c pid rate : Nat) (s : State) :
    ((apply_pension_tax_rate c pid rate s).2).pensioners = s.pensioners := by
  unfold apply_pension_tax_rate
  repeat' split
  all_goals rfl

/-- update_pensioner_employment preserves the invariant: the written record
copies is_deceased and is_receiving_pension from the previous record (or the
all-false default). -/
theorem inv_update_pensioner_employment (s : State) (c pid y sal : Nat)
    (st : EmploymentStatus) (h : NoDeceasedReceiving s) :
    NoDeceasedReceiving (update_pensioner_employment c pid y sal st s).2 := by
  intro q pdq hq
  unfold update_pensioner_employment at hq
  split at hq
  · exact h q pdq hq
  · simp only [mapInsert] at hq
    split at hq
    · injection hq with hh
      subst hh
      cases hbase : s.pensioners pid with
      | none => simp [hbase, defaultPensionerRecord]
      | some pd0 =>
        have h0 := h pid pd0 hbase
        simp only [hbase, Option.getD_some]
        intro hcontra
        exact h0 hcontra
    · exact h q pdq hq

/-- set_age_eligibility_status preserves the invariant: both flags are
copied from the previous record. -/
theorem inv_set_age_eligibility_status (s : State) (c pid : Nat) (b : Bool)
    (h : NoDeceasedReceiving s) :
    NoDeceasedReceiving (set_age_eligibility_status c pid b s).2 := by
  intro q pdq hq
  unfold set_age_eligibility_status at hq
  split at hq
  · exact h q pdq hq
  · split at hq
    · exact h q pdq hq
    · rename_i pd hpd
      simp only [mapInsert] at hq
      split at hq
      · injection hq with hh
        subst hh
        have h0 := h pid pd hpd
        intro hcontra
        exact h0 hcontra
      · exact h q pdq hq

/-- initiate_pension_payout preserves the invariant: is_receiving_pension is
set to true only behind the guard that excludes deceased records. -/
theorem inv_initiate_pension_payout (s : State) (c : Nat)
    (h : NoDeceasedReceiving s) :
    NoDeceasedReceiving (initiate_pension_payout c s).2 := by
  intro q pdq hq
  unfold initiate_pension_payout at hq
  split at hq
  · exact h q pdq hq
  · rename_i pd hpd
    split at hq
    · exact h q pdq hq
    · rename_i hg
      split at hq
      · exact h q pdq hq
      · split at hq
        · exact h q pdq hq
        · rename_i amt hc
          simp only [mapInsert] at hq
          split at hq
          · injection hq with hh
            subst hh
            simp only [Bool.or_eq_true, not_or, Bool.not_eq_true] at hg
            simp [hg.1]
          · exact h q pdq hq

/-- designate_spouse_beneficiary preserves the invariant: both flags are
copied from the previous record. -/
theorem inv_designate_spouse_beneficiary (s : State) (c sp : Nat)
    (h : NoDeceasedReceiving s) :
    NoDeceasedReceiving (designate_spouse_beneficiary c sp s).2 := by
  intro q pdq hq
  unfold designate_spouse_beneficiary at hq
  split at hq
  · exact h q pdq hq
  · rename_i pd hpd
    split at hq
    · exact h q pdq hq
    · simp only [mapInsert] at hq
      split at hq
      · injection hq with hh
        subst hh
        have h0 := h c pd hpd
        intro hcontra
        exact h0 hcontra
      · exact h q pdq hq

/-- report_death_and_assign_spouse_benefit preserves the invariant: it
writes is_deceased = true together with is_receiving_pension = false. -/
theorem inv_report_death (s : State) (pid : Nat) (h : NoDeceasedReceiving s) :
    NoDeceasedReceiving (report_death_and_assign_spouse_benefit pid s).2 := by
  intro q pdq hq
  unfold report_death_and_assign_spouse_benefit at hq
  split at hq
  · exact h q pdq hq
  · rename_i pd hpd
    split at hq
    · exact h q pdq hq
    · split at hq
      · exact h q pdq hq
      · split at hq
        · simp only [mapInsert] at hq
          split at hq
          · injection hq with hh
            subst hh
            simp
          · exact h q pdq hq
        · simp only [mapInsert] at hq
          split at hq
          · injection hq with hh
            subst hh
            simp
          · exact h q pdq hq

/-- Every single contract transition preserves the invariant. -/
theorem inv_step (s s2 : State) (h : NoDeceasedReceiving s) (hs : Step s s2) :
    NoDeceasedReceiving s2 := by
  cases hs with
  | register_company_op c i =>
      intro q pdq hq
      rw [register_company_pensioners] at hq
      exact h q pdq hq
  | unregister_company_op c i =>
      intro q pdq hq
      rw [unregister_company_pensioners] at hq
      exact h q pdq hq
  | register_bank_op c i =>
      intro q pdq hq
      rw [register_bank_pensioners] at hq
      exact h q pdq hq
  | unregister_bank_op c i =>
      intro q pdq hq
      rw [unregister_bank_pensioners] at hq
      exact h q pdq hq
  | register_tax_office_op c i =>
      intro q pdq hq
      rw [register_tax_office_pensioners] at hq
      exact h q pdq hq
  | unregister_tax_office_op c i =>
      intro q pdq hq
      rw [unregister_tax_office_pensioners] at hq
      exact h q pdq hq
  | update_pensioner_employment_op c pid y sal st =>
      exact inv_update_pensioner_employment s c pid y sal st h
  | add_pension_insurance_op c pid amt d =>
      intro q pdq hq
      rw [add_pension_insurance_pensioners] at hq
      exact h q pdq hq
  | apply_pension_tax_rate_op c pid rate =>
      intro q pdq hq
      rw [apply_pension_tax_rate_pensioners] at hq
      exact h q pdq hq
  | set_age_eligibility_status_op c pid b =>
      exact inv_set_age_eligibility_status s c pid b h
  | initiate_pension_payout_op c =>
      exact inv_initiate_pension_payout s c h
  | designate_spouse_beneficiary_op c sp =>
      exact inv_designate_spouse_beneficiary s c sp h
  | report_death_op pid =>
      exact inv_report_death s pid h

/-- C1 (amended): in every reachable contract state no stored record has
is_receiving_pension = true at the same time as is_deceased = true.  (The
first half of the original claim is refuted by the counterexample: the
employment status of a deceased record can be set back to Active by
update_pensioner_employment, which does not check the deceased flag.) -/
theorem c1_theorem (s : State) (h : Reachable s) : NoDeceasedReceiving s := by
  induction h with
  | init c =>
      intro q pdq hq
      simp [State.new] at hq
  | step s s2 hr hstep ih => exact inv_step s s2 ih hstep

/-- Record created in the C1 witness trace. -/
def c1WitnessRecord : PensionerData :=
  { years_worked := 10
    current_salary := 50000
    status := .Active
    is_deceased := false
    is_receiving_pension := false
    is_eligible_for_payout_age_wise := false
    pension_payout_amount := none
    spouse_beneficiary := none }

/-- Reachable state: owner 0 registers company 1, which creates pensioner 2. -/
def c1WitnessState : State :=
  (update_pensioner_employment 1 2 10 50000 .Active
    (register_company 0 1 (State.new 0)).2).2

/-- C1 witness: the invariant theorem applied to the concrete reachable
state c1WitnessState and its stored record for pensioner 2. -/
theorem c1_witness :
    ¬(c1WitnessRecord.is_deceased = true ∧
      c1WitnessRecord.is_receiving_pension = true) :=
  c1_theorem c1WitnessState
    (Reachable.step _ _
      (Reachable.step _ _ (Reachable.init 0) (Step.register_company_op _ 0 1))
      (Step.update_pensioner_employment_op _ 1 2 10 50000 .Active))
    2 c1WitnessRecord rfl

/-- Reachable state in which pensioner 2 (created with status LaidOff by
company 1) has been reported dead. -/
def c1DeadState : State :=
  (report_death_and_assign_spouse_benefit 2
    (update_pensioner_employment 1 2 7 1000 .LaidOff
      (register_company 0 1 (State.new 0)).2).2).2

/-- The state after company 1 updates the deceased pensioner 2 back to
status Active. -/
def c1RevivedState : State :=
  (update_pensioner_employment 1 2 7 1000 .Active c1DeadState).2

/-- C1 counterexample: in the reachable state c1DeadState the record of
pensioner 2 is deceased with status LaidOff, and one
update_pensioner_employment transition sets its employment status back to
Active while it stays deceased — refuting the half of the claim that a
deceased record can never re-enter the Active earning state. -/
theorem c1_counterexample :
    Reachable c1DeadState ∧
    Step c1DeadState c1RevivedState ∧
    ((c1DeadState.pensioners 2).map fun pd => (pd.is_deceased, pd.status)) =
      some (true, .LaidOff) ∧
    ((c1RevivedState.pensioners 2).map fun pd => (pd.is_deceased, pd.status)) =
      some (true, .Active) := by
  refine ⟨?_, Step.update_pensioner_employment_op _ 1 2 7 1000 .Active, rfl, rfl⟩
  exact Reachable.step _ _
    (Reachable.step _ _
      (Reachable.step _ _ (Reachable.init 0) (Step.register_company_op _ 0 1))
      (Step.update_pensioner_employment_op _ 1 2 7 1000 .LaidOff))
    (Step.report_death_op _ 2)
